import Mathlib

/-!
Verification of the PhishGuard detection/scoring pipeline (src/app.py).

The pipeline's runtime-loaded state (the phishing-phrase store, the trusted
domain whitelist, and the optional URL model) is threaded as explicit
parameters.  Machine floats are modelled as rationals; Python's `str.lower`,
`str.isdigit`, `str.isupper` are modelled character-wise with the
corresponding ASCII `Char` operations.
-/

namespace PhishGuard

/-- Python's substring test `p in s`, over character lists:
true iff `p` occurs contiguously in `s`. -/
def isSubstring (p : List Char) : List Char → Bool
  | [] => p.isEmpty
  | c :: rest => p.isPrefixOf (c :: rest) || isSubstring p rest

/-- Python `str.lower`, character-wise. -/
def pyLower (s : String) : String := String.mk (s.data.map Char.toLower)

/-- Character count of a text (`len(t)`). -/
def pyLen (t : String) : Nat := t.data.length

/-- `sum(ch.isdigit() for ch in t)`. -/
def countDigits (t : String) : Nat := (t.data.filter Char.isDigit).length

/-- `sum(ch.isupper() for ch in t)`. -/
def countUppers (t : String) : Nat := (t.data.filter Char.isUpper).length

/-- `t.count("!")`. -/
def countExclam (t : String) : Nat := (t.data.filter (fun c => c == '!')).length

/-- One left-to-right pass of `re.findall(r"http[s]?://|www\.", t)` — at each
position try "https://", then "http://", then "www."; on a match skip past the
matched token (non-overlapping), else advance one character.  The fuel
argument (instantiated with the list length) makes the recursion structural. -/
def countUrlAux : Nat → List Char → Nat
  | 0, _ => 0
  | _ + 1, [] => 0
  | fuel + 1, c :: rest =>
    if ("https://".data).isPrefixOf (c :: rest) then
      countUrlAux fuel ((c :: rest).drop 8) + 1
    else if ("http://".data).isPrefixOf (c :: rest) then
      countUrlAux fuel ((c :: rest).drop 7) + 1
    else if ("www.".data).isPrefixOf (c :: rest) then
      countUrlAux fuel ((c :: rest).drop 4) + 1
    else
      countUrlAux fuel rest

/-- `len(re.findall(r"http[s]?://|www\.", t))` from
`extract_email_meta_features` — note the pattern carries no IGNORECASE flag,
so matching is case-sensitive. -/
def countUrlTokens (t : String) : Nat := countUrlAux t.data.length t.data

/-- Modelled from the spec: the same non-overlapping token count performed
case-insensitively, i.e. on the case-folded text ("url_count = occurrences of
http://, https://, or www. (case-insensitive)"). -/
def countUrlTokensCI (t : String) : Nat := countUrlTokens (pyLower t)

/-- `sum(1 for phrase in EMAIL_UNSAFE_PHRASES if phrase in t.lower())`. -/
def countUrgent (phrases : List String) (t : String) : Nat :=
  (phrases.filter (fun p => isSubstring p.data (pyLower t).data)).length

/-- The meta-feature tuple of `extract_email_meta_features`. -/
structure EmailMeta where
  length : Nat
  digit_ratio : ℚ
  upper_ratio : ℚ
  num_exclam : Nat
  num_urls : Nat
  num_urgent : Nat
  deriving DecidableEq

/-- `extract_email_meta_features` (src/app.py lines 132-145), for one text,
with the phrase store passed explicitly. -/
def extract_email_meta_features (phrases : List String) (t : String) : EmailMeta :=
  ⟨pyLen t,
   (countDigits t : ℚ) / ((max 1 (pyLen t) : Nat) : ℚ),
   (countUppers t : ℚ) / ((max 1 (pyLen t) : Nat) : ℚ),
   countExclam t,
   countUrlTokens t,
   countUrgent phrases t⟩

/-- `check_email_unsafe_by_rules` (src/app.py lines 275-280): the phrases of
the store occurring in the lower-cased text. -/
def check_email_unsafe_by_rules (phrases : List String) (t : String) : List String :=
  if phrases.isEmpty then []
  else phrases.filter (fun p => isSubstring p.data (pyLower t).data)

/-- A per-channel email detection result. -/
structure EmailResult where
  label : String
  probability : ℚ
  score : ℚ
  binary_pred : Int
  meta : EmailMeta
  deriving DecidableEq

/-- The rule-path probability `min(0.85 + n * 0.05, 0.98)` of
`predict_email_with_model`. -/
def rule_path_probability (n : Nat) : ℚ := min (0.85 + (n : ℚ) * 0.05) 0.98

/-- The heuristic suspicion score of `predict_email_with_model`
(src/app.py lines 240-249). -/
def suspicious_score (meta : EmailMeta) : ℚ :=
  let s1 : ℚ := if meta.digit_ratio > 0.15 then 0.2 else 0
  let s2 : ℚ := if meta.upper_ratio > 0.2 then s1 + 0.2 else s1
  let s3 : ℚ := if meta.num_exclam > 3 then s2 + 0.15 else s2
  if meta.num_urls > 2 then s3 + 0.25 else s3

/-- `predict_email_with_model` (src/app.py lines 228-273). -/
def predict_email_with_model (phrases : List String) (text : String) : EmailResult :=
  let meta := extract_email_meta_features phrases text
  let matched := check_email_unsafe_by_rules phrases text
  if matched.isEmpty then
    let s4 := suspicious_score meta
    if s4 > 0.4 then
      ⟨"Phishing Email", 0.6 + s4, (0.6 + s4) * 10, 1, meta⟩
    else
      ⟨"Safe Email", 0.1 + s4, (0.1 + s4) * 10, 0, meta⟩
  else
    let probability := rule_path_probability matched.length
    ⟨"Phishing Email", probability, probability * 10, 1, meta⟩

/-- Split a character list at the first occurrence of `pat`; the parts before
and after it, or `none` when `pat` does not occur. -/
def splitAtSub (pat : List Char) : List Char → Option (List Char × List Char)
  | [] => if pat.isEmpty then some ([], []) else none
  | c :: rest =>
    if pat.isPrefixOf (c :: rest) then some ([], (c :: rest).drop pat.length)
    else
      match splitAtSub pat rest with
      | some (b, a) => some (c :: b, a)
      | none => none

/-- `parse_domain_and_path` (src/app.py lines 289-295), which delegates to the
standard library's `urllib.parse.urlparse` and returns `netloc or path`
lower-cased.  The stdlib parser is modelled for its use here: when `://`
occurs, the netloc is the text between the first `://` and the next `/`, `?`
or `#`; otherwise the input up to the first `?` or `#` is taken (the path). -/
def parse_domain (url : String) : String :=
  let d :=
    match splitAtSub ("://".data) url.data with
    | some (_, tail) => tail.takeWhile (fun c => !(c == '/' || c == '?' || c == '#'))
    | none => url.data.takeWhile (fun c => !(c == '?' || c == '#'))
  String.mk (d.map Char.toLower)

/-- Python `str.strip()`: drop leading and trailing whitespace. -/
def pyStrip (l : List Char) : List Char :=
  ((l.dropWhile Char.isWhitespace).reverse.dropWhile Char.isWhitespace).reverse

/-- `normalize_domain_for_check` (src/app.py lines 297-301):
`domain.split(":")[0].lower().strip()` — i.e. the text before the FIRST
colon — then one leading "www." stripped. -/
def normalize_domain_for_check (domain : String) : String :=
  let d := pyStrip ((domain.data.takeWhile (fun c => !(c == ':'))).map Char.toLower)
  String.mk (if ("www.".data).isPrefixOf d then d.drop 4 else d)

/-- Modelled from the spec ("lower-case, strip trailing port (text after last
`:`), strip a leading `www.` prefix"): the spec's normalization keeps the
text before the LAST colon. -/
def normalize_domain_spec (domain : String) : String :=
  let l := domain.data.map Char.toLower
  let d :=
    if l.contains (':') then ((l.reverse.dropWhile (fun c => !(c == ':'))).drop 1).reverse
    else l
  String.mk (if ("www.".data).isPrefixOf d then d.drop 4 else d)

/-- `is_known_safe_domain` (src/app.py lines 303-308), with the whitelist
passed explicitly. -/
def is_known_safe_domain (safe : List String) (domain : String) : Bool :=
  let d := normalize_domain_for_check domain
  safe.any (fun s => d == s || (("." ++ s).data).isSuffixOf d.data)

/-- Modelled from the spec: whitelist membership decided on the spec's
normalization ("normalized domain equals a trusted entry OR ends with
`"." + entry`"). -/
def is_safe_domain_spec (safe : List String) (domain : String) : Bool :=
  let d := normalize_domain_spec domain
  safe.any (fun s => d == s || (("." ++ s).data).isSuffixOf d.data)

/-- The feature row `{"domain": ..., "dummy": 1}` of
`build_model_ready_url_features` (src/app.py lines 310-312). -/
structure UrlFeatures where
  domain : String
  dummy : Nat
  deriving DecidableEq

/-- A loaded URL model: the class-1 probability its `predict_proba` returns
on a single feature row, or `none` when the invocation raises. -/
def UrlModel : Type := UrlFeatures → Option ℚ

/-- `build_model_ready_url_features` (src/app.py lines 310-312). -/
def build_model_ready_url_features (url : String) : UrlFeatures :=
  ⟨parse_domain url, 1⟩

/-- A per-URL detection result.  `url` is empty until `predict_url` fills it
in (as the Python dict gains its "url" key only there). -/
structure UrlResult where
  url : String
  label : String
  binary_pred : Int
  confidence : ℚ
  deriving DecidableEq

/-- `predict_url_from_features` (src/app.py lines 314-330); `none` for the
model means no model is loaded, and a `none` model output is a raised
exception, absorbed into the 0.5 fallback by the `try/except`. -/
def predict_url_from_features (model : Option UrlModel) (row : UrlFeatures) : UrlResult :=
  match model with
  | none => ⟨"", "Suspicious URL", -1, 0.5⟩
  | some m =>
    let proba := (m row).getD 0.5
    if proba < 0.5 then ⟨"", "Suspicious URL", -1, proba⟩
    else ⟨"", "Phishing URL", 1, proba⟩

/-- `predict_url` (src/app.py lines 332-340). -/
def predict_url (safe : List String) (model : Option UrlModel) (url : String) : UrlResult :=
  let domain := parse_domain url
  if is_known_safe_domain safe domain then ⟨url, "Safe URL", 0, 0.98⟩
  else
    let res := predict_url_from_features model (build_model_ready_url_features url)
    ⟨url, res.label, res.binary_pred, res.confidence⟩

/-- A character admitted into the body of an extracted URL: the regex class
`[^\s<>"')\]]`. -/
def urlBodyChar (c : Char) : Bool :=
  !(c.isWhitespace || c == '<' || c == '>' || c == '"' || c == '\'' || c == ')' || c == ']')

/-- Python's `\w`, for the `\b` word-boundary test (modelled over ASCII). -/
def wordChar (c : Char) : Bool := c.isAlphanum || c == '_'

/-- Case-insensitive "starts with" against an already-lowercase token. -/
def ciPrefixOf (tok : List Char) (s : List Char) : Bool :=
  tok.isPrefixOf (s.map Char.toLower)

/-- The scanner of URL_REGEX (src/app.py line 284):
`(?i)\b((?:https?://|www\.)[^\s<>"')\]]+)` — `prev` is the character before
the scan position, for the word-boundary test; fuel = remaining length. -/
def extractUrlsAux : Nat → Option Char → List Char → List (List Char)
  | 0, _, _ => []
  | _ + 1, _, [] => []
  | fuel + 1, prev, c :: rest =>
    let boundary :=
      match prev with
      | none => true
      | some p => !(wordChar p)
    let k : Nat :=
      if ciPrefixOf ("https://".data) (c :: rest) then 8
      else if ciPrefixOf ("http://".data) (c :: rest) then 7
      else if ciPrefixOf ("www.".data) (c :: rest) then 4
      else 0
    if boundary && k != 0 then
      let body := ((c :: rest).drop k).takeWhile urlBodyChar
      if body.isEmpty then extractUrlsAux fuel (some c) rest
      else
        ((c :: rest).take k ++ body) ::
          extractUrlsAux fuel (some (body.getLastD c)) ((c :: rest).drop (k + body.length))
    else extractUrlsAux fuel (some c) rest

/-- `extract_urls` (src/app.py lines 283-287): the regex hits, each prefixed
with "http://" unless it already starts (case-insensitively) with http(s)://. -/
def extract_urls (t : String) : List String :=
  let hits := extractUrlsAux t.data.length none t.data
  hits.map (fun u =>
    if ciPrefixOf ("http://".data) u || ciPrefixOf ("https://".data) u then String.mk u
    else String.mk (("http://".data) ++ u))

/-- `predict_urls_in_text` (src/app.py lines 342-348). -/
def predict_urls_in_text (safe : List String) (model : Option UrlModel) (t : String) :
    List UrlResult :=
  (extract_urls t).map (predict_url safe model)

/-- A fused hybrid detection result. -/
structure HybridResult where
  final_label : String
  final_proba : ℚ
  final_binary_pred : Int
  email_branch : EmailResult
  url_branch : List UrlResult
  deriving DecidableEq

/-- `hybrid_predict` (src/app.py lines 350-376). -/
def hybrid_predict (phrases : List String) (safe : List String) (model : Option UrlModel)
    (text : String) : HybridResult :=
  let matched := check_email_unsafe_by_rules phrases text
  let email_res :=
    if matched.isEmpty then predict_email_with_model phrases text
    else ⟨"Phishing Email", 0.98, 9.6, 1, extract_email_meta_features phrases text⟩
  let url_res_list := predict_urls_in_text safe model text
  if url_res_list.any (fun u => u.label == "Safe URL") then
    ⟨"Safe Content", 0.98, 0, email_res, url_res_list⟩
  else
    let url_proba : ℚ :=
      if url_res_list.isEmpty then 0.5
      else (url_res_list.map (fun u => u.confidence)).sum / (url_res_list.length : ℚ)
    let final_proba := (email_res.probability + url_proba) / 2
    let final_binary_pred : Int := if final_proba ≥ 0.5 then 1 else 0
    ⟨if final_binary_pred == 1 then "Phishing Content" else "Safe Content",
     final_proba, final_binary_pred, email_res, url_res_list⟩

/-- A verdict as handed to `generate_ai_explanation`: a Python result dict
with optional keys (an absent key is `none`). -/
structure Verdict where
  label : Option String
  binary_pred : Option Int
  probability : Option ℚ
  confidence : Option ℚ
  final_label : Option String
  final_binary_pred : Option Int
  final_proba : Option ℚ
  email_branch : Option EmailResult
  url_branch : Option (List UrlResult)

/-- The email-mode result dict as passed by the /predict route. -/
def EmailResult.toVerdict (r : EmailResult) : Verdict :=
  ⟨some r.label, some r.binary_pred, some r.probability, none, none, none, none, none, none⟩

/-- The url-mode result dict as passed by the /predict route. -/
def UrlResult.toVerdict (r : UrlResult) : Verdict :=
  ⟨some r.label, some r.binary_pred, none, some r.confidence, none, none, none, none, none⟩

/-- The hybrid-mode result dict as passed by the /predict route. -/
def HybridResult.toVerdict (r : HybridResult) : Verdict :=
  ⟨none, none, none, none, some r.final_label, some r.final_binary_pred, some r.final_proba,
   some r.email_branch, some r.url_branch⟩

/-- `result.get("probability", result.get("confidence", result.get("final_proba", 0)))`
(src/app.py line 218). -/
def get_confidence_value (v : Verdict) : ℚ :=
  v.probability.getD (v.confidence.getD (v.final_proba.getD 0))

/-- The High-tier closing line (percentage interpolation elided). -/
def high_conf_line : String :=
  "🎯 High Confidence: Our AI model is confident in this assessment."

/-- The Moderate-tier closing line (percentage interpolation elided). -/
def moderate_conf_line : String :=
  "📊 Moderate Confidence: Our AI model is confident in this assessment."

/-- The Lower-tier closing line (percentage interpolation elided). -/
def lower_conf_line : String :=
  "⚖️ Lower Confidence: Our AI model is confident. Consider additional verification."

/-- The closing confidence-tier line (src/app.py lines 219-224).  The
interpolated percentage (`{confidence*100:.1f}`) is elided from the modelled
strings; the tier selection is exactly the source's. -/
def confidence_line (c : ℚ) : String :=
  if c > 0.9 then high_conf_line
  else if c > 0.7 then moderate_conf_line
  else lower_conf_line

/-- The mode-specific explanation lines of `generate_ai_explanation`
(src/app.py lines 149-215); numeric interpolations are elided from the
modelled strings. -/
def branch_explanations (mode : String) (v : Verdict) (meta : Option EmailMeta) :
    List String :=
  if mode == "email" then
    if v.binary_pred = some 1 then
      ["🚨 High Risk Detected: This email exhibits multiple characteristics commonly found in phishing attempts."]
        ++ (match meta with
            | none => []
            | some m =>
              (if m.num_urgent > 0 then
                ["⚠️ Urgent Language: Contains urgent/suspicious terms that create false urgency."]
               else [])
                ++ (if m.upper_ratio > 0.1 then
                  ["📢 Excessive Capitalization: uppercase text suggests aggressive tactics."]
                 else [])
                ++ (if m.num_exclam > 2 then
                  ["❗ Excessive Punctuation: exclamation marks indicate emotional manipulation."]
                 else [])
                ++ (if m.num_urls > 0 then
                  ["🔗 Suspicious Links: Contains URLs that require verification."]
                 else []))
        ++ ["🛡️ Recommendation: Do not click any links, verify sender through alternative means, and report as spam."]
    else
      ["✅ Low Risk Assessment: This email appears to be legitimate based on our analysis.",
       "📊 Analysis: Content patterns match typical legitimate communication.",
       "💡 Note: Always verify sender identity for sensitive requests, even for legitimate-looking emails."]
  else if mode == "url" then
    if v.binary_pred = some 1 then
      ["🚨 Malicious URL Detected: This URL exhibits patterns associated with phishing websites.",
       "🔍 Domain Analysis: URL structure and domain characteristics suggest potential threat.",
       "🛡️ Recommendation: Do not visit this URL. It may steal credentials or install malware."]
    else if v.binary_pred = some (-1) then
      ["⚠️ Suspicious URL: This URL requires caution and further verification.",
       "🔍 Analysis: Some characteristics are concerning but not definitively malicious.",
       "💡 Recommendation: Verify the URL source before visiting. Use caution if proceeding."]
    else
      ["✅ Safe URL: This URL appears to be from a trusted domain.",
       "🔍 Domain Verification: URL matches known safe domain patterns.",
       "💡 Note: Always ensure you're on the correct website by checking the full URL."]
  else if mode == "hybrid" then
    let final_pred := v.final_binary_pred.getD 0
    let url_list := v.url_branch.getD []
    if final_pred = 1 then
      ["🚨 Comprehensive Threat Analysis: Multiple indicators suggest this is a phishing attempt."]
        ++ (if (v.email_branch.map (fun e => e.binary_pred)) = some 1 then
          ["📧 Email Content Risk: Text analysis reveals phishing patterns."]
         else [])
        ++ (if !url_list.isEmpty && url_list.any (fun u => u.binary_pred == 1) then
          ["🔗 Malicious Links: suspicious URLs detected in content."]
         else [])
        ++ ["🛡️ Critical Action Required: Delete this email immediately and do not interact with any content."]
    else
      ["✅ Comprehensive Safety Check: Multi-layer analysis indicates this content is likely safe."]
        ++ (if !url_list.isEmpty && url_list.any (fun u => u.label == "Safe URL") then
          ["🔗 Trusted Domains: Contains links to verified safe domains."]
         else [])
        ++ ["💡 Best Practice: Continue to verify sender identity for any sensitive requests."]
  else []

/-- `generate_ai_explanation` (src/app.py lines 147-226): the mode-specific
lines, always followed by the confidence-tier line.  (The `input_text`
parameter of the source function is unused in its body and omitted here.) -/
def generate_ai_explanation (mode : String) (v : Verdict) (meta : Option EmailMeta) :
    List String :=
  branch_explanations mode v meta ++ [confidence_line (get_confidence_value v)]

/-- The loaded model (when present) only ever reports class-1 probabilities
inside [0,1] — true of any scikit-learn `predict_proba`. -/
def ModelOutputsInUnit (model : Option UrlModel) : Prop :=
  ∀ m, model = some m → ∀ row q, m row = some q → 0 ≤ q ∧ q ≤ 1

/-! ### Helper lemmas -/

theorem toLower_eq_self_of_not_upper (c : Char) (h : c.isUpper = false) : c.toLower = c := by
  simp only [Char.isUpper, Bool.and_eq_false_iff, decide_eq_false_iff_not, not_le] at h
  unfold Char.toLower
  rw [if_neg]
  rintro ⟨h1, h2⟩
  rcases h with h | h
  · exact h (h1 : (65 : UInt32) ≤ c.val)
  · exact h (h2 : c.val ≤ (90 : UInt32))

theorem suspicious_score_nonneg (meta : EmailMeta) : 0 ≤ suspicious_score meta := by
  unfold suspicious_score
  split_ifs <;> norm_num

theorem suspicious_score_le (meta : EmailMeta) : suspicious_score meta ≤ 0.8 := by
  unfold suspicious_score
  split_ifs <;> norm_num

theorem rule_path_probability_lb (n : Nat) : 0.85 ≤ rule_path_probability n := by
  unfold rule_path_probability
  have h : (0 : ℚ) ≤ (n : ℚ) * 0.05 := by positivity
  apply le_min <;> linarith

theorem rule_path_probability_ub (n : Nat) : rule_path_probability n ≤ 0.98 :=
  min_le_right _ _

theorem rule_path_probability_mono {m n : Nat} (h : m ≤ n) :
    rule_path_probability m ≤ rule_path_probability n := by
  unfold rule_path_probability
  refine min_le_min ?_ le_rfl
  have hc : (m : ℚ) ≤ (n : ℚ) := Nat.cast_le.mpr h
  nlinarith

theorem predict_email_eq_rule (phrases : List String) (t : String)
    (h : check_email_unsafe_by_rules phrases t ≠ []) :
    predict_email_with_model phrases t =
      ⟨"Phishing Email",
       rule_path_probability (check_email_unsafe_by_rules phrases t).length,
       rule_path_probability (check_email_unsafe_by_rules phrases t).length * 10, 1,
       extract_email_meta_features phrases t⟩ := by
  simp only [predict_email_with_model]
  rw [if_neg]
  simp only [List.isEmpty_iff]
  exact h

theorem predict_email_eq_heuristic (phrases : List String) (t : String)
    (h : check_email_unsafe_by_rules phrases t = []) :
    predict_email_with_model phrases t =
      (if suspicious_score (extract_email_meta_features phrases t) > 0.4 then
        ⟨"Phishing Email", 0.6 + suspicious_score (extract_email_meta_features phrases t),
         (0.6 + suspicious_score (extract_email_meta_features phrases t)) * 10, 1,
         extract_email_meta_features phrases t⟩
       else
        ⟨"Safe Email", 0.1 + suspicious_score (extract_email_meta_features phrases t),
         (0.1 + suspicious_score (extract_email_meta_features phrases t)) * 10, 0,
         extract_email_meta_features phrases t⟩) := by
  simp only [predict_email_with_model]
  rw [if_pos]
  simp only [List.isEmpty_iff]
  exact h

theorem predict_email_probability_bounds (phrases : List String) (t : String) :
    0 ≤ (predict_email_with_model phrases t).probability ∧
      (predict_email_with_model phrases t).probability ≤ 1.4 := by
  by_cases h : check_email_unsafe_by_rules phrases t = []
  · rw [predict_email_eq_heuristic phrases t h]
    have h1 := suspicious_score_nonneg (extract_email_meta_features phrases t)
    have h2 := suspicious_score_le (extract_email_meta_features phrases t)
    split_ifs <;> constructor <;> · dsimp only; linarith
  · rw [predict_email_eq_rule phrases t h]
    have h1 := rule_path_probability_lb (check_email_unsafe_by_rules phrases t).length
    have h2 := rule_path_probability_ub (check_email_unsafe_by_rules phrases t).length
    constructor <;> · dsimp only; linarith

theorem sum_le_length_of_le_one :
    ∀ l : List ℚ, (∀ x ∈ l, x ≤ 1) → l.sum ≤ (l.length : ℚ) := by
  intro l
  induction l with
  | nil => simp
  | cons a tl ih =>
    intro h
    have ha := h a (List.mem_cons_self a tl)
    have htl := ih (fun x hx => h x (List.mem_cons_of_mem a hx))
    simp only [List.sum_cons, List.length_cons]
    push_cast
    linarith

theorem mean_bounds (l : List ℚ) (hne : l ≠ []) (h : ∀ x ∈ l, 0 ≤ x ∧ x ≤ 1) :
    0 ≤ l.sum / (l.length : ℚ) ∧ l.sum / (l.length : ℚ) ≤ 1 := by
  have hlen : (0 : ℚ) < (l.length : ℚ) := by
    exact_mod_cast List.length_pos.mpr hne
  have hsum0 : 0 ≤ l.sum := List.sum_nonneg (fun x hx => (h x hx).1)
  have hsum1 : l.sum ≤ (l.length : ℚ) := sum_le_length_of_le_one l (fun x hx => (h x hx).2)
  exact ⟨div_nonneg hsum0 (le_of_lt hlen), (div_le_one hlen).mpr hsum1⟩

theorem predict_url_from_features_confidence_bounds (model : Option UrlModel)
    (row : UrlFeatures) (hm : ModelOutputsInUnit model) :
    0 ≤ (predict_url_from_features model row).confidence ∧
      (predict_url_from_features model row).confidence ≤ 1 := by
  cases model with
  | none => exact ⟨by norm_num [predict_url_from_features], by norm_num [predict_url_from_features]⟩
  | some m =>
    have hq : 0 ≤ (m row).getD 0.5 ∧ (m row).getD 0.5 ≤ 1 := by
      cases hr : m row with
      | none => constructor <;> norm_num
      | some q => simpa using hm m rfl row q hr
    simp only [predict_url_from_features]
    split_ifs <;> exact hq

theorem predict_url_confidence_bounds (safe : List String) (model : Option UrlModel)
    (url : String) (hm : ModelOutputsInUnit model) :
    0 ≤ (predict_url safe model url).confidence ∧
      (predict_url safe model url).confidence ≤ 1 := by
  simp only [predict_url]
  split_ifs
  · constructor <;> norm_num
  · exact predict_url_from_features_confidence_bounds model _ hm

theorem hybrid_url_branch (phrases safe : List String) (model : Option UrlModel) (t : String) :
    (hybrid_predict phrases safe model t).url_branch = predict_urls_in_text safe model t := by
  simp only [hybrid_predict]
  split <;> rfl

theorem hybrid_final_proba_bounds (phrases safe : List String) (model : Option UrlModel)
    (t : String) (hm : ModelOutputsInUnit model) :
    0 ≤ (hybrid_predict phrases safe model t).final_proba ∧
      (hybrid_predict phrases safe model t).final_proba ≤ 1.2 := by
  have hemail : 0 ≤ (if (check_email_unsafe_by_rules phrases t).isEmpty then
        predict_email_with_model phrases t
      else ⟨"Phishing Email", 0.98, 9.6, 1, extract_email_meta_features phrases t⟩ :
        EmailResult).probability ∧
      (if (check_email_unsafe_by_rules phrases t).isEmpty then
        predict_email_with_model phrases t
      else ⟨"Phishing Email", 0.98, 9.6, 1, extract_email_meta_features phrases t⟩ :
        EmailResult).probability ≤ 1.4 := by
    split_ifs
    · exact predict_email_probability_bounds phrases t
    · constructor <;> norm_num
  have hurls : ∀ x ∈ (predict_urls_in_text safe model t).map (fun u => u.confidence),
      0 ≤ x ∧ x ≤ 1 := by
    intro x hx
    obtain ⟨u, hu, hxu⟩ := List.mem_map.mp hx
    obtain ⟨w, _, hw⟩ := List.mem_map.mp hu
    subst hxu
    rw [← hw]
    exact predict_url_confidence_bounds safe model w hm
  have hup : 0 ≤ (if (predict_urls_in_text safe model t).isEmpty then (0.5 : ℚ)
      else ((predict_urls_in_text safe model t).map (fun u => u.confidence)).sum /
        ((predict_urls_in_text safe model t).length : ℚ)) ∧
      (if (predict_urls_in_text safe model t).isEmpty then (0.5 : ℚ)
      else ((predict_urls_in_text safe model t).map (fun u => u.confidence)).sum /
        ((predict_urls_in_text safe model t).length : ℚ)) ≤ 1 := by
    split_ifs with hemp
    · constructor <;> norm_num
    · have hne : (predict_urls_in_text safe model t).map (fun u => u.confidence) ≠ [] := by
        simp only [ne_eq, List.map_eq_nil_iff]
        simpa [List.isEmpty_iff] using hemp
      have := mean_bounds _ hne hurls
      rwa [List.length_map] at this
  simp only [hybrid_predict]
  split
  · constructor <;> norm_num
  · dsimp only
    obtain ⟨hu0, hu1⟩ := hup
    obtain ⟨he0, he1⟩ := hemail
    constructor <;> linarith

/-! ### Claim theorems -/

/-- Claim C2: for every URL whose (parsed) domain is whitelisted,
`predict_url` returns label "Safe URL", binary_pred 0 and confidence 0.98,
for every loaded model — the whitelist short-circuits before the model is
consulted. -/
theorem C2_whitelist_authoritative (safe : List String) (model : Option UrlModel)
    (url : String) (h : is_known_safe_domain safe (parse_domain url) = true) :
    predict_url safe model url = ⟨url, "Safe URL", 0, 0.98⟩ := by
  simp only [predict_url]
  rw [if_pos h]

theorem C2_whitelist_authoritative_witness :
    is_known_safe_domain [("bank.com")] (parse_domain ("http://bank.com/login")) = true ∧
      predict_url [("bank.com")] (some (fun _ => some 0.01)) ("http://bank.com/login") =
        ⟨("http://bank.com/login"), ("Safe URL"), 0, 0.98⟩ :=
  ⟨by decide, C2_whitelist_authoritative _ _ _ (by decide)⟩

/-- Claim C4: when the rule matcher finds at least one phrase, the email
classifier answers binary_pred 1 with label "Phishing Email" and probability
`min (0.85 + 0.05 n) 0.98` for n matched phrases, which lies in
[0.85, 0.98] and is non-decreasing in n. -/
theorem C4_rule_path (phrases : List String) (t : String)
    (h : check_email_unsafe_by_rules phrases t ≠ []) :
    (predict_email_with_model phrases t).binary_pred = 1 ∧
    (predict_email_with_model phrases t).label = "Phishing Email" ∧
    (predict_email_with_model phrases t).probability =
      rule_path_probability (check_email_unsafe_by_rules phrases t).length ∧
    0.85 ≤ (predict_email_with_model phrases t).probability ∧
    (predict_email_with_model phrases t).probability ≤ 0.98 ∧
    ∀ m n : Nat, m ≤ n → rule_path_probability m ≤ rule_path_probability n := by
  rw [predict_email_eq_rule phrases t h]
  refine ⟨rfl, rfl, rfl, ?_, ?_, ?_⟩
  · exact rule_path_probability_lb _
  · exact rule_path_probability_ub _
  · exact fun m n hmn => rule_path_probability_mono hmn

theorem C4_rule_path_witness :
    check_email_unsafe_by_rules [("urgent")] ("urgent!") ≠ [] ∧
      ((predict_email_with_model [("urgent")] ("urgent!")).binary_pred = 1 ∧
       (predict_email_with_model [("urgent")] ("urgent!")).label = "Phishing Email" ∧
       (predict_email_with_model [("urgent")] ("urgent!")).probability =
         rule_path_probability (check_email_unsafe_by_rules [("urgent")] ("urgent!")).length ∧
       0.85 ≤ (predict_email_with_model [("urgent")] ("urgent!")).probability ∧
       (predict_email_with_model [("urgent")] ("urgent!")).probability ≤ 0.98 ∧
       ∀ m n : Nat, m ≤ n → rule_path_probability m ≤ rule_path_probability n) :=
  ⟨by decide, C4_rule_path [("urgent")] ("urgent!") (by decide)⟩

/-- Claim C6: with no model loaded, a non-whitelisted URL yields exactly the
conservative result {"Suspicious URL", -1, 0.5}; and when a loaded model's
invocation raises on an input, the call still returns a result with
confidence 0.5 (the `try/except` absorbs the error; nothing propagates). -/
theorem C6_url_fallbacks (safe : List String) (url : String) (m : UrlModel)
    (hw : is_known_safe_domain safe (parse_domain url) = false)
    (hfail : m (build_model_ready_url_features url) = none) :
    predict_url safe none url = ⟨url, "Suspicious URL", -1, 0.5⟩ ∧
      (predict_url safe (some m) url).confidence = 0.5 := by
  constructor
  · simp only [predict_url]
    rw [if_neg (by simp [hw])]
    rfl
  · simp only [predict_url]
    rw [if_neg (by simp [hw])]
    simp only [predict_url_from_features, hfail, Option.getD_none]
    split_ifs <;> rfl

theorem C6_url_fallbacks_witness :
    is_known_safe_domain [] (parse_domain ("http://evil.example/x")) = false ∧
      (predict_url [] none ("http://evil.example/x") =
        ⟨("http://evil.example/x"), ("Suspicious URL"), -1, 0.5⟩ ∧
       (predict_url [] (some (fun _ => none)) ("http://evil.example/x")).confidence = 0.5) :=
  ⟨by decide, C6_url_fallbacks [] ("http://evil.example/x") (fun _ => none) (by decide) rfl⟩

/-- Claim C10: when a loaded model's `predict_proba` raises on a
non-whitelisted URL, the fallback probability 0.5 fails the `proba < 0.5`
test, so the result is {"Phishing URL", 1, 0.5} — not the neutral
"Suspicious URL" used for the no-model case. -/
theorem C10_inference_failure_is_phishing (safe : List String) (url : String) (m : UrlModel)
    (hw : is_known_safe_domain safe (parse_domain url) = false)
    (hfail : m (build_model_ready_url_features url) = none) :
    predict_url safe (some m) url = ⟨url, "Phishing URL", 1, 0.5⟩ := by
  simp only [predict_url]
  rw [if_neg (by simp [hw])]
  simp only [predict_url_from_features, hfail, Option.getD_none]
  rw [if_neg (by norm_num)]

theorem C10_inference_failure_is_phishing_witness :
    is_known_safe_domain [("bank.com")] (parse_domain ("http://phish.example/a")) = false ∧
      predict_url [("bank.com")] (some (fun _ => none)) ("http://phish.example/a") =
        ⟨("http://phish.example/a"), ("Phishing URL"), 1, 0.5⟩ :=
  ⟨by decide,
   C10_inference_failure_is_phishing [("bank.com")] ("http://phish.example/a")
     (fun _ => none) (by decide) rfl⟩

/-- Claim C9: the meta-feature ratios always lie in [0,1], the counts are
non-negative, and a length-0 text yields ratio 0 (the divisor is
`max 1 length`, so no division by zero occurs). -/
theorem C9_meta_feature_safety (phrases : List String) (t : String) :
    0 ≤ (extract_email_meta_features phrases t).digit_ratio ∧
    (extract_email_meta_features phrases t).digit_ratio ≤ 1 ∧
    0 ≤ (extract_email_meta_features phrases t).upper_ratio ∧
    (extract_email_meta_features phrases t).upper_ratio ≤ 1 ∧
    (0 : ℤ) ≤ ((extract_email_meta_features phrases t).num_exclam : ℤ) ∧
    (0 : ℤ) ≤ ((extract_email_meta_features phrases t).num_urls : ℤ) ∧
    (0 : ℤ) ≤ ((extract_email_meta_features phrases t).num_urgent : ℤ) ∧
    (pyLen t = 0 →
      (extract_email_meta_features phrases t).digit_ratio = 0 ∧
      (extract_email_meta_features phrases t).upper_ratio = 0) := by
  have hpos : (0 : ℚ) < ((max 1 (pyLen t) : Nat) : ℚ) := by
    exact_mod_cast Nat.lt_of_lt_of_le Nat.zero_lt_one (Nat.le_max_left 1 (pyLen t))
  have hdig : countDigits t ≤ pyLen t := List.length_filter_le _ _
  have hupp : countUppers t ≤ pyLen t := List.length_filter_le _ _
  have hle : (pyLen t : ℚ) ≤ ((max 1 (pyLen t) : Nat) : ℚ) := by
    exact_mod_cast Nat.le_max_right 1 (pyLen t)
  refine ⟨?_, ?_, ?_, ?_, ?_, ?_, ?_, ?_⟩
  · exact div_nonneg (by positivity) (le_of_lt hpos)
  · refine (div_le_one hpos).mpr ?_
    calc (countDigits t : ℚ) ≤ (pyLen t : ℚ) := by exact_mod_cast hdig
      _ ≤ _ := hle
  · exact div_nonneg (by positivity) (le_of_lt hpos)
  · refine (div_le_one hpos).mpr ?_
    calc (countUppers t : ℚ) ≤ (pyLen t : ℚ) := by exact_mod_cast hupp
      _ ≤ _ := hle
  · exact Int.natCast_nonneg _
  · exact Int.natCast_nonneg _
  · exact Int.natCast_nonneg _
  · intro h0
    have hd : countDigits t = 0 := Nat.le_zero.mp (h0 ▸ hdig)
    have hu : countUppers t = 0 := Nat.le_zero.mp (h0 ▸ hupp)
    constructor
    · show (countDigits t : ℚ) / _ = 0
      rw [hd]
      simp
    · show (countUppers t : ℚ) / _ = 0
      rw [hu]
      simp

theorem C9_meta_feature_safety_witness :
    (extract_email_meta_features [] ("")).digit_ratio = 0 ∧
      (extract_email_meta_features [] ("")).upper_ratio = 0 :=
  (C9_meta_feature_safety [] ("")).2.2.2.2.2.2.2 rfl

/-- Claim C1 fails on the heuristic path: a text with high digit ratio, high
uppercase ratio, more than three exclamation marks and more than two URL
tokens accumulates a suspicion score of 0.8, and the returned probability is
0.6 + 0.8 = 1.4, outside [0,1]. -/
theorem C1_counterexample :
    (predict_email_with_model [] ("11111AAAAAAA!!!!www.awww.bwww.c")).probability = 1.4 ∧
    ¬((predict_email_with_model [] ("11111AAAAAAA!!!!www.awww.bwww.c")).probability ≤ 1) := by
  have h1 : countDigits ("11111AAAAAAA!!!!www.awww.bwww.c") = 5 := by decide
  have h2 : countUppers ("11111AAAAAAA!!!!www.awww.bwww.c") = 7 := by decide
  have h3 : countExclam ("11111AAAAAAA!!!!www.awww.bwww.c") = 4 := by decide
  have h4 : countUrlTokens ("11111AAAAAAA!!!!www.awww.bwww.c") = 3 := by decide
  have h5 : pyLen ("11111AAAAAAA!!!!www.awww.bwww.c") = 31 := by decide
  have key : (predict_email_with_model [] ("11111AAAAAAA!!!!www.awww.bwww.c")).probability
      = 1.4 := by
    simp only [predict_email_with_model, extract_email_meta_features,
      check_email_unsafe_by_rules, suspicious_score, h1, h2, h3, h4, h5,
      List.isEmpty, if_true, List.filter]
    norm_num
  exact ⟨key, by rw [key]; norm_num⟩

/-- Claim C1, amended: the email probability lies in [0, 1.4] (the heuristic
phishing path, probability = 0.6 + score with score up to 0.8, can exceed 1);
the URL confidence lies in [0,1] whenever the loaded model's outputs do; and
the hybrid final_proba lies in [0, 1.2]. -/
theorem C1_probability_ranges (phrases safe : List String) (model : Option UrlModel)
    (t url : String) (hm : ModelOutputsInUnit model) :
    (0 ≤ (predict_email_with_model phrases t).probability ∧
      (predict_email_with_model phrases t).probability ≤ 1.4) ∧
    (0 ≤ (predict_url safe model url).confidence ∧
      (predict_url safe model url).confidence ≤ 1) ∧
    (0 ≤ (hybrid_predict phrases safe model t).final_proba ∧
      (hybrid_predict phrases safe model t).final_proba ≤ 1.2) :=
  ⟨predict_email_probability_bounds phrases t,
   predict_url_confidence_bounds safe model url hm,
   hybrid_final_proba_bounds phrases safe model t hm⟩

theorem C1_probability_ranges_witness :
    ModelOutputsInUnit (none : Option UrlModel) ∧
    ((0 ≤ (predict_email_with_model [] ("hi")).probability ∧
      (predict_email_with_model [] ("hi")).probability ≤ 1.4) ∧
     (0 ≤ (predict_url [] none ("http://a.b")).confidence ∧
      (predict_url [] none ("http://a.b")).confidence ≤ 1) ∧
     (0 ≤ (hybrid_predict [] [] none ("hi")).final_proba ∧
      (hybrid_predict [] [] none ("hi")).final_proba ≤ 1.2)) :=
  ⟨(fun _ h => nomatch h),
   C1_probability_ranges [] [] none ("hi") ("http://a.b") (fun _ h => nomatch h)⟩

/-- Claim C3: whenever the per-URL results of `hybrid_predict` contain a
"Safe URL" entry, the fused verdict is forced to
{"Safe Content", 0.98, 0}. -/
theorem C3_safe_url_override (phrases safe : List String) (model : Option UrlModel)
    (t : String)
    (h : ∃ u ∈ (hybrid_predict phrases safe model t).url_branch, u.label = "Safe URL") :
    (hybrid_predict phrases safe model t).final_label = "Safe Content" ∧
    (hybrid_predict phrases safe model t).final_proba = 0.98 ∧
    (hybrid_predict phrases safe model t).final_binary_pred = 0 := by
  rw [hybrid_url_branch] at h
  have hany : ((predict_urls_in_text safe model t).any (fun u => u.label == "Safe URL"))
      = true := by
    obtain ⟨u, hu, hl⟩ := h
    exact List.any_eq_true.mpr ⟨u, hu, by simp [hl]⟩
  refine ⟨?_, ?_, ?_⟩ <;> · simp only [hybrid_predict]; rw [if_pos hany]

theorem C3_safe_url_override_witness :
    (∃ u ∈ (hybrid_predict [("verify")] [("bank.com")] none
        ("verify at http://bank.com")).url_branch, u.label = "Safe URL") ∧
    (hybrid_predict [("verify")] [("bank.com")] none
        ("verify at http://bank.com")).email_branch.binary_pred = 1 ∧
    ((hybrid_predict [("verify")] [("bank.com")] none
        ("verify at http://bank.com")).final_label = "Safe Content" ∧
     (hybrid_predict [("verify")] [("bank.com")] none
        ("verify at http://bank.com")).final_proba = 0.98 ∧
     (hybrid_predict [("verify")] [("bank.com")] none
        ("verify at http://bank.com")).final_binary_pred = 0) :=
  ⟨by decide, by decide, C3_safe_url_override _ _ _ _ (by decide)⟩

/-- Claim C5 fails as stated: the source keeps the text before the FIRST
colon (`domain.split(":")[0]`), while the spec strips the text after the
LAST colon; with trusted entry "a:b" the domain "a:b:c" separates the two. -/
theorem C5_counterexample :
    is_known_safe_domain [("a:b")] ("a:b:c") = false ∧
    is_safe_domain_spec [("a:b")] ("a:b:c") = true := by decide

/-- Claim C5, amended: membership is decided on the source normalization —
lower-cased, whitespace-trimmed, keeping only the text before the FIRST
colon, one leading "www." stripped — and holds iff the normalized domain
equals a trusted entry or ends with "." followed by one; the sub.bank.com /
fakebank.com examples behave as claimed. -/
theorem C5_domain_whitelist (safe : List String) (domain : String) :
    (is_known_safe_domain safe domain = true ↔
      ∃ s ∈ safe, normalize_domain_for_check domain = s ∨
        (("." ++ s).data).isSuffixOf (normalize_domain_for_check domain).data = true) ∧
    is_known_safe_domain [("bank.com")] ("sub.bank.com") = true ∧
    is_known_safe_domain [("bank.com")] ("fakebank.com") = false ∧
    normalize_domain_for_check ("WWW.Bank.com:443:80") = ("bank.com") := by
  refine ⟨?_, by decide, by decide, by decide⟩
  simp only [is_known_safe_domain, List.any_eq_true, Bool.or_eq_true, beq_iff_eq]

theorem map_toLower_eq_self (l : List Char) (h : ∀ c ∈ l, c.isUpper = false) :
    l.map Char.toLower = l := by
  induction l with
  | nil => rfl
  | cons a tl ih =>
    simp only [List.map_cons]
    rw [toLower_eq_self_of_not_upper a (h a (List.mem_cons_self a tl)),
      ih (fun c hc => h c (List.mem_cons_of_mem a hc))]

/-- Claim C7 fails at the boundary: the source uses strict comparisons
(`confidence > 0.9`, `> 0.7`), so a verdict whose confidence-like value is
exactly 0.9 — reachable via the rule path with one matched phrase — gets the
Moderate line, not the High line the claim requires for values ≥ 0.9. -/
theorem C7_counterexample :
    (0.9 : ℚ) ≥ 0.9 ∧
    get_confidence_value (EmailResult.toVerdict
      (predict_email_with_model [("verify")] ("please verify"))) = 0.9 ∧
    (generate_ai_explanation ("email")
      (EmailResult.toVerdict (predict_email_with_model [("verify")] ("please verify")))
      none).getLast? = some moderate_conf_line ∧
    moderate_conf_line ≠ high_conf_line := by
  have hm : check_email_unsafe_by_rules [("verify")] ("please verify") = [("verify")] := by
    decide
  have hr : rule_path_probability 1 = 0.9 := by
    unfold rule_path_probability
    rw [min_eq_left (by norm_num)]
    norm_num
  have hp : (predict_email_with_model [("verify")] ("please verify")).probability = 0.9 := by
    rw [predict_email_eq_rule _ _ (by decide)]
    dsimp only
    rw [hm]
    simpa using hr
  have hcv : get_confidence_value (EmailResult.toVerdict
      (predict_email_with_model [("verify")] ("please verify"))) = 0.9 := by
    simp only [get_confidence_value, EmailResult.toVerdict, Option.getD_some]
    exact hp
  refine ⟨le_refl _, hcv, ?_, by decide⟩
  simp only [generate_ai_explanation, List.getLast?_concat]
  rw [hcv]
  unfold confidence_line
  rw [if_neg (by norm_num), if_pos (by norm_num)]

/-- Claim C7, amended: the last explanation line is always the
confidence-tier line for the value extracted in priority order probability,
confidence, final_proba; the tiers are strict — High iff value > 0.9,
Moderate iff 0.7 < value ≤ 0.9, Lower iff value ≤ 0.7. -/
theorem C7_confidence_tier (mode : String) (v : Verdict) (meta : Option EmailMeta) (c : ℚ) :
    (generate_ai_explanation mode v meta).getLast? =
      some (confidence_line (get_confidence_value v)) ∧
    (confidence_line c = high_conf_line ↔ 0.9 < c) ∧
    (confidence_line c = moderate_conf_line ↔ 0.7 < c ∧ c ≤ 0.9) ∧
    (confidence_line c = lower_conf_line ↔ c ≤ 0.7) := by
  refine ⟨?_, ?_, ?_, ?_⟩
  · simp only [generate_ai_explanation]
    exact List.getLast?_concat _
  · unfold confidence_line
    split_ifs with h1 h2
    · exact iff_of_true rfl h1
    · exact iff_of_false (by decide) (fun hc => h1 hc)
    · exact iff_of_false (by decide) (fun hc => h1 hc)
  · unfold confidence_line
    split_ifs with h1 h2
    · exact iff_of_false (by decide) (fun hc => absurd h1 (not_lt.mpr hc.2))
    · exact iff_of_true rfl ⟨h2, not_lt.mp h1⟩
    · exact iff_of_false (by decide) (fun hc => h2 hc.1)
  · unfold confidence_line
    split_ifs with h1 h2
    · exact iff_of_false (by decide) (fun hc => absurd h1 (not_lt.mpr (hc.trans (by norm_num))))
    · exact iff_of_false (by decide) (fun hc => absurd h2 (not_lt.mpr hc))
    · exact iff_of_true rfl (not_lt.mp h2)

/-- Claim C8 fails as stated: the meta-feature regex has no IGNORECASE flag,
so "HTTP://" is not counted although the case-insensitive count (the claim's
reading) finds it. -/
theorem C8_counterexample :
    (extract_email_meta_features [] ("HTTP://a")).num_urls = 0 ∧
    countUrlTokensCI ("HTTP://a") = 1 ∧
    (extract_email_meta_features [] ("http://a")).num_urls = 1 := by decide

/-- Claim C8, amended: url_count is the number of non-overlapping
occurrences of "http://", "https://" or "www." counted CASE-SENSITIVELY; on
text containing no upper-case letters it coincides with the case-insensitive
count. -/
theorem C8_url_count (phrases : List String) (t : String)
    (hlower : ∀ c ∈ t.data, c.isUpper = false) :
    (extract_email_meta_features phrases t).num_urls = countUrlTokens t ∧
    countUrlTokens t = countUrlTokensCI t := by
  refine ⟨rfl, ?_⟩
  have hmap : t.data.map Char.toLower = t.data := map_toLower_eq_self t.data hlower
  show countUrlAux t.data.length t.data
    = countUrlAux (t.data.map Char.toLower).length (t.data.map Char.toLower)
  rw [hmap]

theorem C8_url_count_witness :
    (∀ c ∈ ("see www.x http://y").data, c.isUpper = false) ∧
    ((extract_email_meta_features [] ("see www.x http://y")).num_urls
        = countUrlTokens ("see www.x http://y") ∧
      countUrlTokens ("see www.x http://y") = countUrlTokensCI ("see www.x http://y")) :=
  ⟨by decide, C8_url_count [] ("see www.x http://y") (by decide)⟩

end PhishGuard
